import Mathlib

/-!
Verification development for the client-side query specification layer
(`proto/query/examples`): the fluent `QueryBuilder` of `query_builder.py`
and the `QueryClient` of `grpc_client.py`, shallowly embedded in Lean.

Modelling notes.
* The protobuf message classes (`query_pb2`, `filter_pb2`, ...) are code
  generated from proto schemas that are not part of the source tree; their
  field shapes are reproduced here from the way the Python examples read and
  write them, together with the data-model table of the specification.
  Proto3 scalar fields have no presence and default to `0`/`""`/`false`;
  message-typed fields have presence and are modelled with `Option`.
  Message fields that no code in the source tree ever touches (for example
  `Aggregate.percentile`, `Aggregation.having`, the body of `Relation`) are
  omitted or kept minimal.
* Python `datetime` values are modelled by their broken-down components plus
  an optional UTC offset in minutes; `pyIsoformat` reproduces
  `datetime.isoformat()` for whole-second datetimes (zero microseconds).
* Python floats are never computed with by the code under study, only stored;
  they are modelled by an opaque literal wrapper `PyFloat`.
-/

namespace ProtoQuery

/-- Opaque stand-in for a Python float: the builder and client only store
floats, never compute with them, so the payload is kept uninterpreted. -/
structure PyFloat where
  lit : String
deriving DecidableEq, Repr

/-- A Python `datetime` with whole seconds: broken-down time plus the UTC
offset in minutes carried by `tzinfo` (`Option.none` for a naive datetime). -/
structure PyDatetime where
  year : Nat
  month : Nat
  day : Nat
  hour : Nat
  minute : Nat
  second : Nat
  tzOffsetMinutes : Option Int
deriving DecidableEq, Repr

/-- Zero-pad a natural number to two digits, as Python `isoformat` does. -/
def pad2 (n : Nat) : String :=
  if n < 10 then "0" ++ toString n else toString n

/-- Zero-pad a natural number to four digits, as Python `isoformat` does
for the year. -/
def pad4 (n : Nat) : String :=
  if n < 10 then "000" ++ toString n
  else if n < 100 then "00" ++ toString n
  else if n < 1000 then "0" ++ toString n
  else toString n

/-- UTC-offset suffix of Python `datetime.isoformat()`: empty for a naive
datetime, otherwise a signed `HH:MM` offset (so `+00:00` for aware UTC). -/
def offsetSuffix : Option Int → String
  | Option.none => ""
  | some off =>
    let sign := if off < 0 then "-" else "+"
    let a := off.natAbs
    sign ++ pad2 (a / 60) ++ ":" ++ pad2 (a % 60)

/-- Python `datetime.isoformat()` for a whole-second datetime:
`YYYY-MM-DDTHH:MM:SS` followed by the offset suffix when the datetime is
timezone-aware. -/
def pyIsoformat (d : PyDatetime) : String :=
  pad4 d.year ++ "-" ++ pad2 d.month ++ "-" ++ pad2 d.day ++ "T" ++
  pad2 d.hour ++ ":" ++ pad2 d.minute ++ ":" ++ pad2 d.second ++
  offsetSuffix d.tzOffsetMinutes

/-- A native Python scalar accepted by `QueryBuilder._to_proto_value`.
The `other` constructor stands for any object of a type outside the
explicitly handled ones, carried as its `str(...)` rendering. -/
inductive PyVal where
  | bool (b : Bool)
  | int (n : Int)
  | float (f : PyFloat)
  | str (s : String)
  | datetime (d : PyDatetime)
  | none
  | other (strRepr : String)
deriving DecidableEq, Repr

/-- Payload of the protobuf `Value.number_value` field. The Python code
stores both ints and floats there (the wire type is a double); the embedding
keeps the original payload rather than modelling double rounding, which no
claim depends on. -/
inductive NumPayload where
  | ofInt (n : Int)
  | ofFloat (f : PyFloat)
deriving DecidableEq, Repr

/-- The protobuf `google.protobuf.Value` tagged scalar, restricted to the
variants the builder produces. -/
inductive ProtoValue where
  | nullValue
  | number (p : NumPayload)
  | string (s : String)
  | bool (b : Bool)
deriving DecidableEq, Repr

/-- Translation of `QueryBuilder._to_proto_value` (query_builder.py
lines 402-418).  The Python `isinstance` chain tests `bool` before `int`,
which the disjoint constructors of `PyVal` reproduce. -/
def to_proto_value : PyVal → ProtoValue
  | .bool b => .bool b
  | .int n => .number (.ofInt n)
  | .float f => .number (.ofFloat f)
  | .str s => .string s
  | .datetime d => .string (pyIsoformat d ++ "Z")
  | .none => .nullValue
  | .other r => .string r

/-- Filter operator enum of `filter_pb2` (only named constants the source
uses, plus the unspecified default). -/
inductive Operator where
  | unspecified
  | EQ | NE | LT | LTE | GT | GTE
  | IN | NOT_IN
  | CONTAINS | STARTS_WITH | ENDS_WITH | MATCHES
  | IS_NULL | IS_NOT_NULL
  | ARRAY_CONTAINS | ARRAY_CONTAINS_ANY
deriving DecidableEq, Repr

/-- The `filter_pb2.Condition` leaf: field path, operator, optional single
operand, operand list, and case-sensitivity flag, with proto3 defaults. -/
structure Condition where
  field : String := ""
  operator : Operator := .unspecified
  value : Option ProtoValue := Option.none
  values : List ProtoValue := []
  case_sensitive : Bool := false
deriving DecidableEq, Repr

/-- The recursive `filter_pb2.Filter` variant.  `and_ children` stands for
`Filter(and_=AndFilter(conditions=children))` (and similarly `or_`),
flattening the single-field wrapper message. -/
inductive Filter where
  | condition (c : Condition)
  | and_ (conditions : List Filter)
  | or_ (conditions : List Filter)
  | not_ (f : Filter)

/-- Sort direction enum of `sort_pb2`. -/
inductive SortDirection where
  | unspecified | asc | desc
deriving DecidableEq, Repr

/-- Null-ordering enum of `sort_pb2`; `default_` is the proto default. -/
inductive NullOrdering where
  | default_ | first | last
deriving DecidableEq, Repr

/-- The `sort_pb2.Sort` message (named `SortSpec` because `Sort` is a Lean
keyword). -/
structure SortSpec where
  field : String := ""
  direction : SortDirection := .unspecified
  nulls : NullOrdering := .default_
deriving DecidableEq, Repr

/-- The `pagination_pb2.Pagination` message with proto3 scalar defaults. -/
structure Pagination where
  page_size : Int := 0
  cursor : String := ""
  offset : Int := 0
deriving DecidableEq, Repr

/-- The `query_pb2.Projection` message: include and exclude field lists.
The source field named `include` is spelled `include_` here. -/
structure Projection where
  include_ : List String := []
  exclude : List String := []
deriving DecidableEq, Repr

/-- Aggregate function enum of `aggregation_pb2` (constants the source uses). -/
inductive AggregateFunction where
  | unspecified | COUNT | SUM | AVG | MIN | MAX
deriving DecidableEq, Repr

/-- The `aggregation_pb2.Aggregate` message, restricted to the fields the
builder writes (`function`, `field`, `alias`). -/
structure Aggregate where
  function : AggregateFunction := .unspecified
  field : String := ""
  alias_ : String := ""
deriving DecidableEq, Repr

/-- The `aggregation_pb2.Aggregation` message, restricted to the fields the
builder writes (`group_by`, `aggregates`). -/
structure Aggregation where
  group_by : List String := []
  aggregates : List Aggregate := []
deriving DecidableEq, Repr

/-- Search type enum of `search_pb2`. -/
inductive SearchType where
  | unspecified | full_text | semantic | hybrid
deriving DecidableEq, Repr

/-- The `search_pb2.Search` message with proto3 defaults. -/
structure Search where
  query : String := ""
  type : SearchType := .unspecified
  fields : List String := []
  vector_field : String := ""
  embedding : List PyFloat := []
  min_score : PyFloat := { lit := "0.0" }
deriving DecidableEq, Repr

/-- Consistency level enum of `query_pb2`. -/
inductive ConsistencyLevel where
  | unspecified | eventual | strong | linearizable
deriving DecidableEq, Repr

/-- The `query_pb2.QueryOptions` message with proto3 defaults. -/
structure QueryOptions where
  timeout_ms : Int := 0
  count_total : Bool := false
  consistency : ConsistencyLevel := .unspecified
  explain : Bool := false
deriving DecidableEq, Repr

/-- The `relation_pb2.Relation` message, kept minimal: the builder never
constructs a Relation (it has no relation-adding method), so only
identifying fields are modelled. -/
structure Relation where
  entity : String := ""
  alias_ : String := ""
  eager : Bool := false
deriving DecidableEq, Repr

/-- The `query_pb2.Query` aggregate root.  Message-typed fields have
presence (`Option`); `sort` and `relation` are repeated fields. -/
structure Query where
  entity : String := ""
  filter : Option Filter := Option.none
  sort : List SortSpec := []
  projection : Option Projection := Option.none
  pagination : Option Pagination := Option.none
  aggregation : Option Aggregation := Option.none
  search : Option Search := Option.none
  relation : List Relation := []
  options : Option QueryOptions := Option.none

/-- The mutable accumulation state of `QueryBuilder.__init__`
(query_builder.py lines 34-49). -/
structure BuilderState where
  entity : String
  filters : List Filter := []
  sorts : List SortSpec := []
  projection : Option Projection := Option.none
  pagination : Option Pagination := Option.none
  aggregation : Option Aggregation := Option.none
  search : Option Search := Option.none
  relations : List Relation := []
  options : Option QueryOptions := Option.none

/-- Translation of `QueryBuilder(entity)`. -/
def initBuilder (entity : String) : BuilderState := { entity := entity }

/-- Translation of `QueryBuilder._add_condition`: append a leaf filter with
a single coerced operand (case_sensitive is left at its proto default). -/
def add_condition (st : BuilderState) (field : String) (op : Operator)
    (value : PyVal) : BuilderState :=
  { st with filters := st.filters ++
      [.condition { field := field, operator := op,
                    value := some (to_proto_value value) }] }

/-- Translation of `QueryBuilder.filter_eq`. -/
def filter_eq (st : BuilderState) (field : String) (value : PyVal) :
    BuilderState := add_condition st field .EQ value

/-- Translation of `QueryBuilder.filter_ne`. -/
def filter_ne (st : BuilderState) (field : String) (value : PyVal) :
    BuilderState := add_condition st field .NE value

/-- Translation of `QueryBuilder.filter_lt`. -/
def filter_lt (st : BuilderState) (field : String) (value : PyVal) :
    BuilderState := add_condition st field .LT value

/-- Translation of `QueryBuilder.filter_lte`. -/
def filter_lte (st : BuilderState) (field : String) (value : PyVal) :
    BuilderState := add_condition st field .LTE value

/-- Translation of `QueryBuilder.filter_gt`. -/
def filter_gt (st : BuilderState) (field : String) (value : PyVal) :
    BuilderState := add_condition st field .GT value

/-- Translation of `QueryBuilder.filter_gte`. -/
def filter_gte (st : BuilderState) (field : String) (value : PyVal) :
    BuilderState := add_condition st field .GTE value

/-- Translation of `QueryBuilder.filter_in`: the operand list goes into the
repeated `values` field. -/
def filter_in (st : BuilderState) (field : String) (values : List PyVal) :
    BuilderState :=
  { st with filters := st.filters ++
      [.condition { field := field, operator := .IN,
                    values := values.map to_proto_value }] }

/-- Translation of `QueryBuilder.filter_not_in`. -/
def filter_not_in (st : BuilderState) (field : String) (values : List PyVal) :
    BuilderState :=
  { st with filters := st.filters ++
      [.condition { field := field, operator := .NOT_IN,
                    values := values.map to_proto_value }] }

/-- Translation of `QueryBuilder.filter_contains`: the operand is a string
value and the case-sensitivity flag is set from the argument. -/
def filter_contains (st : BuilderState) (field : String) (value : String)
    (case_sensitive : Bool) : BuilderState :=
  { st with filters := st.filters ++
      [.condition { field := field, operator := .CONTAINS,
                    value := some (.string value),
                    case_sensitive := case_sensitive }] }

/-- Translation of `QueryBuilder.filter_starts_with` (the Python argument is
typed `str`). -/
def filter_starts_with (st : BuilderState) (field : String) (value : String) :
    BuilderState := add_condition st field .STARTS_WITH (.str value)

/-- Translation of `QueryBuilder.filter_ends_with`. -/
def filter_ends_with (st : BuilderState) (field : String) (value : String) :
    BuilderState := add_condition st field .ENDS_WITH (.str value)

/-- Translation of `QueryBuilder.filter_matches`. -/
def filter_matches (st : BuilderState) (field : String) (pat : String) :
    BuilderState := add_condition st field .MATCHES (.str pat)

/-- Translation of `QueryBuilder.filter_is_null`: no operand is set. -/
def filter_is_null (st : BuilderState) (field : String) : BuilderState :=
  { st with filters := st.filters ++
      [.condition { field := field, operator := .IS_NULL }] }

/-- Translation of `QueryBuilder.filter_is_not_null`. -/
def filter_is_not_null (st : BuilderState) (field : String) : BuilderState :=
  { st with filters := st.filters ++
      [.condition { field := field, operator := .IS_NOT_NULL }] }

/-- Translation of `QueryBuilder.filter_array_contains`. -/
def filter_array_contains (st : BuilderState) (field : String) (value : PyVal) :
    BuilderState := add_condition st field .ARRAY_CONTAINS value

/-- Translation of `QueryBuilder._add_sort`: the nulls policy is set only
for the strings "first" and "last", otherwise the proto default stays. -/
def add_sort (st : BuilderState) (field : String) (direction : SortDirection)
    (nulls : String) : BuilderState :=
  { st with sorts := st.sorts ++
      [{ field := field, direction := direction,
         nulls := if nulls = "first" then .first
                  else if nulls = "last" then .last
                  else .default_ }] }

/-- Translation of `QueryBuilder.sort_asc`. -/
def sort_asc (st : BuilderState) (field : String) (nulls : String) :
    BuilderState := add_sort st field .asc nulls

/-- Translation of `QueryBuilder.sort_desc`. -/
def sort_desc (st : BuilderState) (field : String) (nulls : String) :
    BuilderState := add_sort st field .desc nulls

/-- Translation of `QueryBuilder.include`: replaces the whole projection
with an include-only one. -/
def include_ (st : BuilderState) (fields : List String) : BuilderState :=
  { st with projection := some { include_ := fields } }

/-- Translation of `QueryBuilder.exclude`: replaces the whole projection
with an exclude-only one. -/
def exclude (st : BuilderState) (fields : List String) : BuilderState :=
  { st with projection := some { exclude := fields } }

/-- Translation of `QueryBuilder.limit`: create the pagination message on
first use, then assign its `page_size` field. -/
def limit (st : BuilderState) (page_size : Int) : BuilderState :=
  { st with pagination := some { (st.pagination.getD {}) with page_size := page_size } }

/-- Translation of `QueryBuilder.cursor`. -/
def cursor (st : BuilderState) (c : String) : BuilderState :=
  { st with pagination := some { (st.pagination.getD {}) with cursor := c } }

/-- Translation of `QueryBuilder.offset`. -/
def offset (st : BuilderState) (o : Int) : BuilderState :=
  { st with pagination := some { (st.pagination.getD {}) with offset := o } }

/-- Translation of `QueryBuilder.search_fulltext`: `fields or []` maps a
Python `None` (and an empty list) to the empty list. -/
def search_fulltext (st : BuilderState) (query : String)
    (fields : Option (List String)) (min_score : PyFloat) : BuilderState :=
  { st with search := some { query := query, type := .full_text,
                             fields := fields.getD [],
                             min_score := min_score } }

/-- Translation of `QueryBuilder.search_semantic`: `query or ""` and
`embedding or []` map Python `None` to the proto defaults. -/
def search_semantic (st : BuilderState) (query : Option String)
    (embedding : Option (List PyFloat)) (vector_field : String)
    (min_score : PyFloat) : BuilderState :=
  { st with search := some { query := query.getD "", type := .semantic,
                             vector_field := vector_field,
                             embedding := embedding.getD [],
                             min_score := min_score } }

/-- Translation of `QueryBuilder.group_by`: create the aggregation message
on first use, then extend its `group_by` list. -/
def group_by (st : BuilderState) (fields : List String) : BuilderState :=
  let agg := st.aggregation.getD {}
  { st with aggregation := some { agg with group_by := agg.group_by ++ fields } }

/-- Python `s or default` for strings: empty and missing are falsy. -/
def pyOrStr (s : Option String) (dflt : String) : String :=
  match s with
  | some v => if v = "" then dflt else v
  | Option.none => dflt

/-- Translation of `QueryBuilder._add_aggregate`: create the aggregation
message on first use and append one aggregate; `alias or "result"` and the
`if field:` guard follow Python truthiness. -/
def add_aggregate (st : BuilderState) (function : AggregateFunction)
    (field : Option String) (alias_ : Option String) : BuilderState :=
  let agg := st.aggregation.getD {}
  let a : Aggregate := { function := function, alias_ := pyOrStr alias_ "result",
                         field := pyOrStr field "" }
  { st with aggregation := some { agg with aggregates := agg.aggregates ++ [a] } }

/-- Translation of `QueryBuilder.count`. -/
def count (st : BuilderState) (alias_ : String) : BuilderState :=
  add_aggregate st .COUNT Option.none (some alias_)

/-- Translation of `QueryBuilder.sum`: `alias or f"sum_{field}"`. -/
def sum (st : BuilderState) (field : String) (alias_ : Option String) :
    BuilderState :=
  add_aggregate st .SUM (some field) (some (pyOrStr alias_ ("sum_" ++ field)))

/-- Translation of `QueryBuilder.avg`. -/
def avg (st : BuilderState) (field : String) (alias_ : Option String) :
    BuilderState :=
  add_aggregate st .AVG (some field) (some (pyOrStr alias_ ("avg_" ++ field)))

/-- Translation of `QueryBuilder.min`. -/
def minAgg (st : BuilderState) (field : String) (alias_ : Option String) :
    BuilderState :=
  add_aggregate st .MIN (some field) (some (pyOrStr alias_ ("min_" ++ field)))

/-- Translation of `QueryBuilder.max`. -/
def maxAgg (st : BuilderState) (field : String) (alias_ : Option String) :
    BuilderState :=
  add_aggregate st .MAX (some field) (some (pyOrStr alias_ ("max_" ++ field)))

/-- Translation of `QueryBuilder.timeout`: create the options message on
first use, then assign its `timeout_ms` field. -/
def timeout (st : BuilderState) (timeout_ms : Int) : BuilderState :=
  { st with options := some { (st.options.getD {}) with timeout_ms := timeout_ms } }

/-- Translation of `QueryBuilder.explain`. -/
def explain (st : BuilderState) (enabled : Bool) : BuilderState :=
  { st with options := some { (st.options.getD {}) with explain := enabled } }

/-- Translation of `QueryBuilder.count_total`. -/
def count_total (st : BuilderState) (enabled : Bool) : BuilderState :=
  { st with options := some { (st.options.getD {}) with count_total := enabled } }

/-- The `level_map.get(level, CONSISTENCY_LEVEL_STRONG)` lookup of
`QueryBuilder.consistency`. -/
def consistencyLevelOf (level : String) : ConsistencyLevel :=
  if level = "eventual" then .eventual
  else if level = "strong" then .strong
  else if level = "linearizable" then .linearizable
  else .strong

/-- Translation of `QueryBuilder.consistency`. -/
def consistency (st : BuilderState) (level : String) : BuilderState :=
  let o := st.options.getD {}
  { st with options := some { o with consistency := consistencyLevelOf level } }

/-- Translation of `QueryBuilder.build` (query_builder.py lines 318-361):
zero accumulated filters leave `Query.filter` absent, exactly one becomes
the filter directly, two or more are wrapped in a single `AndFilter`;
a default `Pagination(page_size=50)` is injected only when no pagination
was set and no aggregation is present; all other fields are copied. -/
def build (st : BuilderState) : Query :=
  { entity := st.entity
    filter :=
      match st.filters with
      | [] => Option.none
      | [f] => some f
      | fs => some (.and_ fs)
    sort := st.sorts
    projection := st.projection
    pagination :=
      match st.pagination with
      | some p => some p
      | Option.none =>
        if st.aggregation.isSome then Option.none
        else some { page_size := 50 }
    aggregation := st.aggregation
    search := st.search
    relation := st.relations
    options := st.options }

/-- State-passing form of `build`: the Python method reads the builder's
fields and writes only into the freshly constructed `Query` (each field is
copied with `CopyFrom`/`extend`), so the builder state comes back
unchanged. -/
def buildM (st : BuilderState) : BuilderState × Query := (st, build st)

/-- One public call on the fluent builder, with its arguments.  A list of
these models an arbitrary call sequence on one `QueryBuilder` instance. -/
inductive BCall where
  | filterEq (field : String) (value : PyVal)
  | filterNe (field : String) (value : PyVal)
  | filterLt (field : String) (value : PyVal)
  | filterLte (field : String) (value : PyVal)
  | filterGt (field : String) (value : PyVal)
  | filterGte (field : String) (value : PyVal)
  | filterIn (field : String) (values : List PyVal)
  | filterNotIn (field : String) (values : List PyVal)
  | filterContains (field : String) (value : String) (case_sensitive : Bool)
  | filterStartsWith (field : String) (value : String)
  | filterEndsWith (field : String) (value : String)
  | filterMatches (field : String) (pat : String)
  | filterIsNull (field : String)
  | filterIsNotNull (field : String)
  | filterArrayContains (field : String) (value : PyVal)
  | sortAsc (field : String) (nulls : String)
  | sortDesc (field : String) (nulls : String)
  | includeFields (fields : List String)
  | excludeFields (fields : List String)
  | limitCall (page_size : Int)
  | cursorCall (c : String)
  | offsetCall (o : Int)
  | searchFulltextCall (query : String) (fields : Option (List String))
      (min_score : PyFloat)
  | searchSemanticCall (query : Option String)
      (embedding : Option (List PyFloat)) (vector_field : String)
      (min_score : PyFloat)
  | groupByCall (fields : List String)
  | countCall (alias_ : String)
  | sumCall (field : String) (alias_ : Option String)
  | avgCall (field : String) (alias_ : Option String)
  | minCall (field : String) (alias_ : Option String)
  | maxCall (field : String) (alias_ : Option String)
  | timeoutCall (timeout_ms : Int)
  | explainCall (enabled : Bool)
  | countTotalCall (enabled : Bool)
  | consistencyCall (level : String)

/-- Dispatch one builder call to its translated method. -/
def applyCall (st : BuilderState) : BCall → BuilderState
  | .filterEq f v => filter_eq st f v
  | .filterNe f v => filter_ne st f v
  | .filterLt f v => filter_lt st f v
  | .filterLte f v => filter_lte st f v
  | .filterGt f v => filter_gt st f v
  | .filterGte f v => filter_gte st f v
  | .filterIn f vs => filter_in st f vs
  | .filterNotIn f vs => filter_not_in st f vs
  | .filterContains f v cs => filter_contains st f v cs
  | .filterStartsWith f v => filter_starts_with st f v
  | .filterEndsWith f v => filter_ends_with st f v
  | .filterMatches f p => filter_matches st f p
  | .filterIsNull f => filter_is_null st f
  | .filterIsNotNull f => filter_is_not_null st f
  | .filterArrayContains f v => filter_array_contains st f v
  | .sortAsc f n => sort_asc st f n
  | .sortDesc f n => sort_desc st f n
  | .includeFields fs => include_ st fs
  | .excludeFields fs => exclude st fs
  | .limitCall n => limit st n
  | .cursorCall c => cursor st c
  | .offsetCall o => offset st o
  | .searchFulltextCall q fs ms => search_fulltext st q fs ms
  | .searchSemanticCall q emb vf ms => search_semantic st q emb vf ms
  | .groupByCall fs => group_by st fs
  | .countCall a => count st a
  | .sumCall f a => sum st f a
  | .avgCall f a => avg st f a
  | .minCall f a => minAgg st f a
  | .maxCall f a => maxAgg st f a
  | .timeoutCall ms => timeout st ms
  | .explainCall b => explain st b
  | .countTotalCall b => count_total st b
  | .consistencyCall l => consistency st l

/-- Run a sequence of builder calls from a starting state. -/
def runCalls (st : BuilderState) (cs : List BCall) : BuilderState :=
  cs.foldl applyCall st

/-- A gRPC channel as `grpc.insecure_channel(host)` produces it; `closed`
records a `close()` call on the object. -/
structure GrpcChannel where
  host : String
  closed : Bool := false
deriving DecidableEq, Repr

/-- The generated service stub.  No code in the source tree ever constructs
one: the single assignment to `self._stub` in `connect` is commented out
(grpc_client.py line 60). -/
structure ServiceStub where
  channelHost : String
deriving DecidableEq, Repr

/-- The state of a `QueryClient` instance (grpc_client.py lines 33-48). -/
structure ClientState where
  host : String
  tenant_id : String
  timeout : Int
  channel : Option GrpcChannel := Option.none
  stub : Option ServiceStub := Option.none
deriving DecidableEq, Repr

/-- Translation of `QueryClient.__init__`. -/
def initClient (host tenant_id : String) (timeout : Int) : ClientState :=
  { host := host, tenant_id := tenant_id, timeout := timeout }

/-- Translation of `QueryClient.connect` (grpc_client.py lines 50-62):
assigns `self._channel`; the stub-creating line is commented out in the
source, so `stub` is left untouched. -/
def connect (st : ClientState) : ClientState :=
  { st with channel := some { host := st.host } }

/-- Translation of `QueryClient.close`: calls `close()` on the channel
object when present; the `_channel` and `_stub` attributes themselves are
not reassigned. -/
def close (st : ClientState) : ClientState :=
  { st with channel := st.channel.map (fun ch => { ch with closed := true }) }

/-- One item of the mock result list (an `id`/`name` record). -/
structure MockItem where
  id : String
  name : String
deriving DecidableEq, Repr

/-- The pagination block of `QueryClient._mock_response`. -/
structure MockPagination where
  totalCount : Int
  pageSize : Int
  hasMore : Bool
  nextCursor : String
deriving DecidableEq, Repr

/-- The dictionary `QueryClient._mock_response` returns. -/
structure MockResponse where
  results : List MockItem
  pagination : MockPagination
deriving DecidableEq, Repr

/-- Translation of `QueryClient._mock_response`: two fixed items and a
pagination echo whose `pageSize` is `query.pagination.page_size or 50`
(reading `page_size` through an unset `pagination` yields the proto
default `0`, which is falsy). -/
def mock_response (q : Query) : MockResponse :=
  { results := [{ id := "1", name := "Item 1" }, { id := "2", name := "Item 2" }]
    pagination :=
      { totalCount := 100
        pageSize :=
          (let ps := (q.pagination.getD {}).page_size
           if ps = 0 then 50 else ps)
        hasMore := true
        nextCursor := "next_page_cursor_abc123" } }

/-- Translation of `QueryClient.execute_query` (grpc_client.py lines 70-106):
with no stub it raises `RuntimeError("Not connected. Call connect() first.")`
before any other work; otherwise the (commented-out) RPC is replaced by the
mock response, and the `grpc.RpcError` handler is dead code on this path.
The request-metadata construction has no observable effect on the result and
is not modelled. -/
def execute_query (st : ClientState) (q : Query) : Except String MockResponse :=
  match st.stub with
  | Option.none => .error "Not connected. Call connect() first."
  | some _ => .ok (mock_response q)

/-- State-passing form of `execute_query` making explicit that the method
never writes to any field of the `Query` argument. -/
def execute_query_q (st : ClientState) (q : Query) :
    Query × Except String MockResponse :=
  (q, execute_query st q)

/-- An operation on one `QueryClient` used to drive its state. -/
inductive ClientOp where
  | connectOp
  | closeOp

/-- Dispatch one client operation. -/
def applyClientOp (st : ClientState) : ClientOp → ClientState
  | .connectOp => connect st
  | .closeOp => close st

/-- Run a sequence of client operations. -/
def runClientOps (st : ClientState) (ops : List ClientOp) : ClientState :=
  ops.foldl applyClientOp st

/-- Write `query.options.explain = True` on a query, auto-creating the
options message as protobuf attribute assignment does. -/
def set_explain_true (q : Query) : Query :=
  { q with options := some { q.options.getD {} with explain := true } }

/-- Translation of `QueryClient.explain_query` (grpc_client.py
lines 141-161), returning the (possibly mutated) query argument alongside
the result: `if not query.options.explain: query.options.explain = True`
mutates the caller's query in place before the request is made; the mock
response never carries an `explain` key, so a successful call degrades to
the empty dictionary. -/
def explain_query (st : ClientState) (q : Query) :
    Query × Except String (List (String × String)) :=
  let q1 := if (q.options.getD {}).explain then q else set_explain_true q
  match execute_query st q1 with
  | .error e => (q1, .error e)
  | .ok _ => (q1, .ok [])

/-- The pagination echo of one page response as the client reads it from
the response dictionary: `nextCursor` may be absent, `hasMore` is falsy
when absent (per `dict.get`), matching `MessageToDict` output that omits
default-valued fields. -/
structure PagEcho where
  nextCursor : Option String := Option.none
  hasMore : Bool := false
deriving DecidableEq, Repr

/-- One page response as `execute_paginated` inspects it; the `pagination`
key may be absent (`response.get('pagination', {})`). -/
structure PageResponse where
  pagination : Option PagEcho := Option.none
deriving DecidableEq, Repr

/-- Python truthiness of the cursor read from the response: `None` and the
empty string are falsy. -/
def cursorUsable : Option String → Bool
  | Option.none => false
  | some s => if s = "" then false else true

/-- Write `query.pagination.cursor = c`, auto-creating the pagination
message as protobuf attribute assignment does. -/
def setPagCursor (q : Query) (c : String) : Query :=
  { q with pagination := some { q.pagination.getD {} with cursor := c } }

/-- The break test of the loop body: `if not cursor or not
pagination.get('hasMore'): break`, after `cursor =
pagination.get('nextCursor')`. -/
def stopAfter (r : PageResponse) : Bool :=
  let pag := r.pagination.getD {}
  !(cursorUsable pag.nextCursor && pag.hasMore)

/-- Loop body of `QueryClient.execute_paginated` (grpc_client.py
lines 120-139).  `fetch k` is the response to the k-th request, abstracting
the transport as the specification's external collaborator; the fuel
argument is `max_pages - page`.  Before each request after the first, the
previous page's cursor is written into `query.pagination.cursor` (the
`if cursor:` guard skips falsy cursors); the loop never reaches that write
with a falsy cursor because such a response breaks the loop first. -/
def pagGo (fetch : Nat → PageResponse) :
    Nat → Nat → Query → Option String → List PageResponse × Query
  | 0, _, q, _ => ([], q)
  | Nat.succ fuel, idx, q, cur =>
    let q1 :=
      match cur with
      | some c => if c = "" then q else setPagCursor q c
      | Option.none => q
    let r := fetch idx
    let pag := r.pagination.getD {}
    if cursorUsable pag.nextCursor && pag.hasMore then
      let rest := pagGo fetch fuel (idx + 1) q1 pag.nextCursor
      (r :: rest.1, rest.2)
    else
      ([r], q1)

/-- Translation of `QueryClient.execute_paginated`: yields the pages the
generator produces and returns the final state of the (mutated) query
argument.  The loop `while page < max_pages` with `page` starting at 0 and
incremented once per full iteration runs at most `max_pages` iterations. -/
def execute_paginated (fetch : Nat → PageResponse) (q : Query)
    (max_pages : Nat) : List PageResponse × Query :=
  pagGo fetch max_pages 0 q Option.none

/-- Every element of the list except the last is a page the loop continued
past (its break test was false): holds of the yielded page sequence. -/
def chainOk : List PageResponse → Prop
  | [] => True
  | [_] => True
  | r :: s :: rest => stopAfter r = false ∧ chainOk (s :: rest)

/-- The filters a single builder call appends (empty for non-filter calls):
the per-call effect of the builder on its `_filters` list. -/
def filterStep (fs : List Filter) : BCall → List Filter
  | .filterEq f v => fs ++
      [.condition { field := f, operator := .EQ, value := some (to_proto_value v) }]
  | .filterNe f v => fs ++
      [.condition { field := f, operator := .NE, value := some (to_proto_value v) }]
  | .filterLt f v => fs ++
      [.condition { field := f, operator := .LT, value := some (to_proto_value v) }]
  | .filterLte f v => fs ++
      [.condition { field := f, operator := .LTE, value := some (to_proto_value v) }]
  | .filterGt f v => fs ++
      [.condition { field := f, operator := .GT, value := some (to_proto_value v) }]
  | .filterGte f v => fs ++
      [.condition { field := f, operator := .GTE, value := some (to_proto_value v) }]
  | .filterIn f vs => fs ++
      [.condition { field := f, operator := .IN, values := vs.map to_proto_value }]
  | .filterNotIn f vs => fs ++
      [.condition { field := f, operator := .NOT_IN, values := vs.map to_proto_value }]
  | .filterContains f v cs => fs ++
      [.condition { field := f, operator := .CONTAINS, value := some (.string v),
                    case_sensitive := cs }]
  | .filterStartsWith f v => fs ++
      [.condition { field := f, operator := .STARTS_WITH, value := some (.string v) }]
  | .filterEndsWith f v => fs ++
      [.condition { field := f, operator := .ENDS_WITH, value := some (.string v) }]
  | .filterMatches f p => fs ++
      [.condition { field := f, operator := .MATCHES, value := some (.string p) }]
  | .filterIsNull f => fs ++
      [.condition { field := f, operator := .IS_NULL }]
  | .filterIsNotNull f => fs ++
      [.condition { field := f, operator := .IS_NOT_NULL }]
  | .filterArrayContains f v => fs ++
      [.condition { field := f, operator := .ARRAY_CONTAINS,
                    value := some (to_proto_value v) }]
  | _ => fs

/-- Per-call effect on the builder's `_projection` slot: `include`/`exclude`
replace it wholesale, every other call leaves it alone. -/
def projStep (p : Option Projection) : BCall → Option Projection
  | .includeFields fs => some { include_ := fs }
  | .excludeFields fs => some { exclude := fs }
  | _ => p

/-- Per-call effect on the builder's `_search` slot: the two search methods
replace it wholesale, every other call leaves it alone. -/
def searchStep (s : Option Search) : BCall → Option Search
  | .searchFulltextCall q fs ms =>
      some { query := q, type := .full_text, fields := fs.getD [],
             min_score := ms }
  | .searchSemanticCall q emb vf ms =>
      some { query := q.getD "", type := .semantic, vector_field := vf,
             embedding := emb.getD [], min_score := ms }
  | _ => s

/-- Per-call effect on the builder's `_pagination` slot: each pagination
method creates the message on first use and updates its own field. -/
def pagStep (p : Option Pagination) : BCall → Option Pagination
  | .limitCall n => some { (p.getD {}) with page_size := n }
  | .cursorCall c => some { (p.getD {}) with cursor := c }
  | .offsetCall o => some { (p.getD {}) with offset := o }
  | _ => p

/-- Appending one aggregate to an optional aggregation, as
`_add_aggregate` does. -/
def aggAppend (a : Option Aggregation) (function : AggregateFunction)
    (field alias_ : Option String) : Option Aggregation :=
  let agg := a.getD {}
  some { agg with aggregates := agg.aggregates ++
          [{ function := function, alias_ := pyOrStr alias_ "result",
             field := pyOrStr field "" }] }

/-- Per-call effect on the builder's `_aggregation` slot: `group_by`
extends the grouping list, aggregate methods append an aggregate, other
calls leave it alone. -/
def aggStep (a : Option Aggregation) : BCall → Option Aggregation
  | .groupByCall fs =>
      let agg := a.getD {}
      some { agg with group_by := agg.group_by ++ fs }
  | .countCall al => aggAppend a .COUNT Option.none (some al)
  | .sumCall f al => aggAppend a .SUM (some f) (some (pyOrStr al ("sum_" ++ f)))
  | .avgCall f al => aggAppend a .AVG (some f) (some (pyOrStr al ("avg_" ++ f)))
  | .minCall f al => aggAppend a .MIN (some f) (some (pyOrStr al ("min_" ++ f)))
  | .maxCall f al => aggAppend a .MAX (some f) (some (pyOrStr al ("max_" ++ f)))
  | _ => a

/-- Per-call effect on the builder's `_options` slot: each option method
creates the message on first use and updates its own field. -/
def optStep (o : Option QueryOptions) : BCall → Option QueryOptions
  | .timeoutCall ms => some { (o.getD {}) with timeout_ms := ms }
  | .explainCall b => some { (o.getD {}) with explain := b }
  | .countTotalCall b => some { (o.getD {}) with count_total := b }
  | .consistencyCall l =>
      some { (o.getD {}) with consistency := consistencyLevelOf l }
  | _ => o

/-- Calls that touch the builder's `_pagination` slot. -/
def isPagCall : BCall → Bool
  | .limitCall _ => true
  | .cursorCall _ => true
  | .offsetCall _ => true
  | _ => false

/-- Calls that touch the builder's `_aggregation` slot. -/
def isAggCall : BCall → Bool
  | .groupByCall _ => true
  | .countCall _ => true
  | .sumCall _ _ => true
  | .avgCall _ _ => true
  | .minCall _ _ => true
  | .maxCall _ _ => true
  | _ => false

lemma applyCall_filters (st : BuilderState) (c : BCall) :
    (applyCall st c).filters = filterStep st.filters c := by
  cases c <;> rfl

lemma applyCall_projection (st : BuilderState) (c : BCall) :
    (applyCall st c).projection = projStep st.projection c := by
  cases c <;> rfl

lemma applyCall_search (st : BuilderState) (c : BCall) :
    (applyCall st c).search = searchStep st.search c := by
  cases c <;> rfl

lemma applyCall_pagination (st : BuilderState) (c : BCall) :
    (applyCall st c).pagination = pagStep st.pagination c := by
  cases c <;> rfl

lemma applyCall_aggregation (st : BuilderState) (c : BCall) :
    (applyCall st c).aggregation = aggStep st.aggregation c := by
  cases c <;> rfl

lemma applyCall_options (st : BuilderState) (c : BCall) :
    (applyCall st c).options = optStep st.options c := by
  cases c <;> rfl

lemma applyCall_relations (st : BuilderState) (c : BCall) :
    (applyCall st c).relations = st.relations := by
  cases c <;> rfl

lemma applyCall_entity (st : BuilderState) (c : BCall) :
    (applyCall st c).entity = st.entity := by
  cases c <;> rfl

lemma foldField {α : Type} (f : BuilderState → α) (step : α → BCall → α)
    (h : ∀ st c, f (applyCall st c) = step (f st) c) :
    ∀ (cs : List BCall) (st : BuilderState),
      f (runCalls st cs) = cs.foldl step (f st) := by
  intro cs
  induction cs with
  | nil => intro st; rfl
  | cons c cs ih =>
    intro st
    have h1 : runCalls st (c :: cs) = runCalls (applyCall st c) cs := rfl
    rw [h1, ih, List.foldl_cons, h]

lemma runCalls_filters (cs : List BCall) (st : BuilderState) :
    (runCalls st cs).filters = cs.foldl filterStep st.filters :=
  foldField BuilderState.filters filterStep applyCall_filters cs st

lemma runCalls_projection (cs : List BCall) (st : BuilderState) :
    (runCalls st cs).projection = cs.foldl projStep st.projection :=
  foldField BuilderState.projection projStep applyCall_projection cs st

lemma runCalls_search (cs : List BCall) (st : BuilderState) :
    (runCalls st cs).search = cs.foldl searchStep st.search :=
  foldField BuilderState.search searchStep applyCall_search cs st

lemma runCalls_pagination (cs : List BCall) (st : BuilderState) :
    (runCalls st cs).pagination = cs.foldl pagStep st.pagination :=
  foldField BuilderState.pagination pagStep applyCall_pagination cs st

lemma runCalls_aggregation (cs : List BCall) (st : BuilderState) :
    (runCalls st cs).aggregation = cs.foldl aggStep st.aggregation :=
  foldField BuilderState.aggregation aggStep applyCall_aggregation cs st

lemma runCalls_options (cs : List BCall) (st : BuilderState) :
    (runCalls st cs).options = cs.foldl optStep st.options :=
  foldField BuilderState.options optStep applyCall_options cs st

lemma foldl_const {α : Type} (cs : List BCall) (x : α) :
    cs.foldl (fun r (_ : BCall) => r) x = x := by
  induction cs with
  | nil => rfl
  | cons c cs ih => rw [List.foldl_cons]; exact ih

lemma runCalls_relations (cs : List BCall) (st : BuilderState) :
    (runCalls st cs).relations = st.relations := by
  have h := foldField BuilderState.relations (fun r _ => r)
    (fun st c => applyCall_relations st c) cs st
  rw [h, foldl_const]

lemma runCalls_entity (cs : List BCall) (st : BuilderState) :
    (runCalls st cs).entity = st.entity := by
  have h := foldField BuilderState.entity (fun e _ => e)
    (fun st c => applyCall_entity st c) cs st
  rw [h, foldl_const]

lemma pagStep_isSome (p : Option Pagination) (c : BCall) :
    (pagStep p c).isSome = (p.isSome || isPagCall c) := by
  cases c <;> cases p <;> rfl

lemma aggStep_isSome (a : Option Aggregation) (c : BCall) :
    (aggStep a c).isSome = (a.isSome || isAggCall c) := by
  cases c <;> cases a <;> rfl

lemma foldl_pagStep_isSome (cs : List BCall) (p : Option Pagination) :
    (cs.foldl pagStep p).isSome = (p.isSome || cs.any isPagCall) := by
  induction cs generalizing p with
  | nil => simp
  | cons c cs ih =>
    rw [List.foldl_cons, ih, pagStep_isSome, List.any_cons]
    rw [Bool.or_assoc]

lemma foldl_aggStep_isSome (cs : List BCall) (a : Option Aggregation) :
    (cs.foldl aggStep a).isSome = (a.isSome || cs.any isAggCall) := by
  induction cs generalizing a with
  | nil => simp
  | cons c cs ih =>
    rw [List.foldl_cons, ih, aggStep_isSome, List.any_cons]
    rw [Bool.or_assoc]

lemma build_filter_cases (st : BuilderState) :
    (st.filters = [] → (build st).filter = Option.none) ∧
    (∀ f, st.filters = [f] → (build st).filter = some f) ∧
    (2 ≤ st.filters.length →
      (build st).filter = some (Filter.and_ st.filters)) := by
  refine ⟨fun h => ?_, fun f h => ?_, fun h => ?_⟩
  · simp [build, h]
  · simp [build, h]
  · rcases hfs : st.filters with _ | ⟨a, _ | ⟨b, tl⟩⟩
    · rw [hfs] at h; simp at h
    · rw [hfs] at h; simp at h
    · simp [build, hfs]

/-- C1: for every sequence of builder calls, the accumulated filters are
exactly the leaf/composite filters of the filter calls in call order, and
`build()` sets `Query.filter` as follows: with zero accumulated filters the
filter field is absent; with exactly one accumulated filter that filter
becomes `Query.filter` directly with no wrapping; with two or more,
`Query.filter` is a single `And` composite whose children are the
accumulated filters in call order. -/
theorem c1_filter_normalization (e : String) (cs : List BCall) :
    (runCalls (initBuilder e) cs).filters = cs.foldl filterStep [] ∧
    ((runCalls (initBuilder e) cs).filters = [] →
      (build (runCalls (initBuilder e) cs)).filter = Option.none) ∧
    (∀ f, (runCalls (initBuilder e) cs).filters = [f] →
      (build (runCalls (initBuilder e) cs)).filter = some f) ∧
    (2 ≤ (runCalls (initBuilder e) cs).filters.length →
      (build (runCalls (initBuilder e) cs)).filter
        = some (Filter.and_ (runCalls (initBuilder e) cs).filters)) :=
  ⟨runCalls_filters cs (initBuilder e),
   (build_filter_cases (runCalls (initBuilder e) cs)).1,
   (build_filter_cases (runCalls (initBuilder e) cs)).2.1,
   (build_filter_cases (runCalls (initBuilder e) cs)).2.2⟩

/-- Call sequence of the spec's example scenario: two filter calls. -/
def twoFilterCalls : List BCall :=
  [.filterEq "status" (.str "active"), .filterGte "age" (.int 18)]

/-- Witness for C1 at a concrete two-filter call sequence: the built filter
is the `And` wrapper over the two accumulated filters. -/
theorem c1_filter_normalization_witness :
    (build (runCalls (initBuilder "users") twoFilterCalls)).filter
      = some (Filter.and_ (runCalls (initBuilder "users") twoFilterCalls).filters) :=
  (c1_filter_normalization "users" twoFilterCalls).2.2.2 (by decide)

/-- C2 (amended): `_to_proto_value` is total and deterministic; booleans map
to the bool variant, integers and floats to the number variant, strings to
the string variant, `None` to the null variant, any other input to its
string representation, and a datetime maps to its `isoformat()` text with
a literal "Z" appended — a string with a trailing "Z", but one that is a
correct ISO-8601 UTC instant only when the datetime carries no explicit
UTC offset.  Totality and determinism hold because the translation is a
Lean function defined on all of `PyVal`. -/
theorem c2_value_coercion_amended :
    (∀ b, to_proto_value (.bool b) = .bool b) ∧
    (∀ n, to_proto_value (.int n) = .number (.ofInt n)) ∧
    (∀ f, to_proto_value (.float f) = .number (.ofFloat f)) ∧
    (∀ s, to_proto_value (.str s) = .string s) ∧
    (∀ d, to_proto_value (.datetime d) = .string (pyIsoformat d ++ "Z")) ∧
    (∀ d, ∃ t, to_proto_value (.datetime d) = .string (t ++ "Z")) ∧
    (to_proto_value .none = .nullValue) ∧
    (∀ r, to_proto_value (.other r) = .string r) :=
  ⟨fun _ => rfl, fun _ => rfl, fun _ => rfl, fun _ => rfl, fun _ => rfl,
   fun d => ⟨pyIsoformat d, rfl⟩, rfl, fun _ => rfl⟩

/-- Spec-side shape check, modelled from the spec's words "an ISO-8601 UTC
string with a trailing Z": two necessary conditions of any such string —
it ends in "Z" and it contains no explicit numeric UTC offset, hence no
'+' character (the Zulu form is `YYYY-MM-DDTHH:MM:SS[.ffffff]Z`). -/
def specIso8601UtcShape (s : String) : Bool :=
  decide (s.toList.getLast? = some 'Z') && !(s.toList.contains '+')

/-- An aware UTC datetime (`tzinfo=timezone.utc`): the most favourable
timezone-aware input for the claim. -/
def awareUtcExample : PyDatetime :=
  { year := 2024, month := 1, day := 1, hour := 10, minute := 0, second := 0,
    tzOffsetMinutes := some 0 }

/-- Counterexample to C2: for a timezone-aware datetime, `isoformat()`
already carries the `+00:00` offset and the code appends "Z" to it, so the
result is not an ISO-8601 UTC string (it contains both an offset and a
Zulu marker). -/
theorem c2_value_coercion_counterexample :
    to_proto_value (.datetime awareUtcExample)
      = .string "2024-01-01T10:00:00+00:00Z" ∧
    specIso8601UtcShape "2024-01-01T10:00:00+00:00Z" = false := by
  constructor
  · decide
  · decide

/-- C3: `build()` injects the default `Pagination(page_size=50)` exactly
when the caller never set page size, cursor, or offset and no aggregation
was configured; with an aggregation present and no pagination set, the
built query has no pagination; and when the caller did set pagination,
the built query carries the caller's accumulated pagination. -/
theorem c3_default_pagination (e : String) (cs : List BCall) :
    (cs.any isPagCall = false → cs.any isAggCall = false →
      (build (runCalls (initBuilder e) cs)).pagination
        = some { page_size := 50 }) ∧
    (cs.any isPagCall = false → cs.any isAggCall = true →
      (build (runCalls (initBuilder e) cs)).pagination = Option.none) ∧
    (cs.any isPagCall = true →
      (build (runCalls (initBuilder e) cs)).pagination
          = (runCalls (initBuilder e) cs).pagination ∧
        ((runCalls (initBuilder e) cs).pagination).isSome = true) := by
  have hpag : ((runCalls (initBuilder e) cs).pagination).isSome
      = cs.any isPagCall := by
    rw [runCalls_pagination, foldl_pagStep_isSome]
    rfl
  have hagg : ((runCalls (initBuilder e) cs).aggregation).isSome
      = cs.any isAggCall := by
    rw [runCalls_aggregation, foldl_aggStep_isSome]
    rfl
  refine ⟨fun hp ha => ?_, fun hp ha => ?_, fun hp => ?_⟩
  · rcases hpp : (runCalls (initBuilder e) cs).pagination with _ | p
    · have ha2 : ((runCalls (initBuilder e) cs).aggregation).isSome = false := by
        rw [hagg, ha]
      simp [build, hpp, ha2]
    · rw [hpp] at hpag; rw [hp] at hpag; simp at hpag
  · rcases hpp : (runCalls (initBuilder e) cs).pagination with _ | p
    · have ha2 : ((runCalls (initBuilder e) cs).aggregation).isSome = true := by
        rw [hagg, ha]
      simp [build, hpp, ha2]
    · rw [hpp] at hpag; rw [hp] at hpag; simp at hpag
  · rcases hpp : (runCalls (initBuilder e) cs).pagination with _ | p
    · rw [hpp] at hpag; rw [hp] at hpag; simp at hpag
    · exact ⟨by simp [build, hpp], rfl⟩

/-- Witness for C3 at concrete call sequences: a filter-only sequence gets
the default page size 50; a group-by sequence gets no pagination. -/
theorem c3_default_pagination_witness :
    (build (runCalls (initBuilder "users") [.filterEq "status" (.str "active")])).pagination
      = some { page_size := 50 } ∧
    (build (runCalls (initBuilder "orders") [.groupByCall ["customer_id"]])).pagination
      = Option.none :=
  ⟨(c3_default_pagination "users" [.filterEq "status" (.str "active")]).1
      (by decide) (by decide),
   (c3_default_pagination "orders" [.groupByCall ["customer_id"]]).2.1
      (by decide) (by decide)⟩

/-- C4: `build()` is idempotent — it leaves the builder state unchanged
(the Python method only reads `self` and writes into the fresh `Query`),
so building twice with no intervening mutation yields structurally equal
queries. -/
theorem c4_build_idempotent (st : BuilderState) :
    (buildM st).1 = st ∧ (buildM (buildM st).1).2 = (buildM st).2 :=
  ⟨rfl, rfl⟩

/-- Counterexample to C5: two `group_by` calls accumulate — the built
aggregation contains both grouping fields, and differs from what building
after only the last `group_by` call produces, so the Aggregation field is
not last-write-wins. -/
theorem c5_set_once_counterexample :
    (build (runCalls (initBuilder "sales")
        [.groupByCall ["a"], .groupByCall ["b"]])).aggregation
      = some { group_by := ["a", "b"] } ∧
    (build (runCalls (initBuilder "sales")
        [.groupByCall ["a"], .groupByCall ["b"]])).aggregation
      ≠ (build (runCalls (initBuilder "sales") [.groupByCall ["b"]])).aggregation := by
  constructor
  · rfl
  · decide

/-- C5 (amended): Projection and Search are set-once, last-write-wins
fields (absent when never set, otherwise the value of the last
corresponding call); Relation is always absent because the builder has no
relation-adding method; Aggregation and Options instead accumulate across
invocations — `group_by` extends the grouping list and aggregate calls
append, and each option setter updates its own field of one shared
`QueryOptions` — as characterized by the per-call folds. -/
theorem c5_set_once_amended (e : String) (cs : List BCall) :
    (build (runCalls (initBuilder e) cs)).projection
        = cs.foldl projStep Option.none ∧
    (build (runCalls (initBuilder e) cs)).search
        = cs.foldl searchStep Option.none ∧
    (build (runCalls (initBuilder e) cs)).relation = [] ∧
    (build (runCalls (initBuilder e) cs)).aggregation
        = cs.foldl aggStep Option.none ∧
    (build (runCalls (initBuilder e) cs)).options
        = cs.foldl optStep Option.none :=
  ⟨runCalls_projection cs (initBuilder e),
   runCalls_search cs (initBuilder e),
   runCalls_relations cs (initBuilder e),
   runCalls_aggregation cs (initBuilder e),
   runCalls_options cs (initBuilder e)⟩

/-- Counterexample to C6: `build()` performs no entity validation — for a
builder constructed with the empty entity name it returns a `Query` (with
`entity = ""` and the default pagination injected) instead of failing;
no code path in `build` can raise. -/
theorem c6_empty_entity_counterexample :
    build (initBuilder "")
      = { entity := "", pagination := some { page_size := 50 } } := rfl

/-- C6 (amended): `build()` never validates the entity name; for every call
sequence it returns a `Query` whose entity is copied verbatim from the
constructor argument, including the empty string. -/
theorem c6_empty_entity_amended (e : String) (cs : List BCall) :
    (build (runCalls (initBuilder e) cs)).entity = e :=
  runCalls_entity cs (initBuilder e)

/-- A client instance with the constructor defaults of `QueryClient`. -/
def clientDemo : ClientState := initClient "localhost:50051" "tenant_123" 30

/-- A built query with no options set. -/
def qNoOptions : Query := build (initBuilder "users")

/-- A second built query with no options set, used as the concrete
counterexample input. -/
def qOrders : Query := build (initBuilder "orders")

lemma explain_query_fst (st : ClientState) (q : Query) :
    (explain_query st q).1
      = if (q.options.getD {}).explain then q else set_explain_true q := by
  rcases hq : execute_query st
      (if (q.options.getD {}).explain then q else set_explain_true q) with e | r
  · simp [explain_query, hq]
  · simp [explain_query, hq]

/-- Counterexample to C7: `explain_query` mutates the caller's query — for
a built query with no options, the query that comes back differs from the
one passed in (its `options.explain` has been set in place, before any
request is attempted). -/
theorem c7_immutability_counterexample :
    (explain_query clientDemo qOrders).1 ≠ qOrders := by
  intro h
  have h2 := congrArg (fun qq => (qq.options.getD {}).explain) h
  rw [explain_query_fst] at h2
  simp [qOrders, build, initBuilder, set_explain_true] at h2

/-- C7 (amended): `execute_query` leaves the query argument unchanged;
`explain_query` leaves it unchanged only when `options.explain` is already
true and otherwise sets `options.explain` to true in place (so the query
passed in is changed); `execute_paginated` leaves the query unchanged when
at most one page is requested (from the second request on it writes the
continuation cursor into `query.pagination.cursor`). -/
theorem c7_immutability_amended (st : ClientState) (q : Query) :
    (execute_query_q st q).1 = q ∧
    ((q.options.getD {}).explain = true → (explain_query st q).1 = q) ∧
    ((q.options.getD {}).explain = false →
      (explain_query st q).1 = set_explain_true q ∧
      (explain_query st q).1 ≠ q) ∧
    (∀ fetch, (execute_paginated fetch q 1).2 = q) := by
  refine ⟨rfl, fun h => ?_, fun h => ?_, fun fetch => ?_⟩
  · rw [explain_query_fst, h]; simp
  · have h1 : (explain_query st q).1 = set_explain_true q := by
      rw [explain_query_fst, h]; simp
    refine ⟨h1, fun heq => ?_⟩
    have h2 := congrArg (fun qq => (qq.options.getD {}).explain) heq
    rw [h1] at h2
    simp [set_explain_true] at h2
    rw [h] at h2
    exact Bool.noConfusion h2
  · show (pagGo fetch 1 0 q Option.none).2 = q
    simp only [pagGo]
    split <;> rfl

/-- Witness for C7 (amended) at a concrete client and a concrete query
without options: the mutated query is `set_explain_true qNoOptions` and
differs from the input. -/
theorem c7_immutability_amended_witness :
    (explain_query clientDemo qNoOptions).1 = set_explain_true qNoOptions ∧
    (explain_query clientDemo qNoOptions).1 ≠ qNoOptions :=
  (c7_immutability_amended clientDemo qNoOptions).2.2.1 rfl

lemma chainOk_cons {r : PageResponse} {l : List PageResponse}
    (h : stopAfter r = false) (hl : chainOk l) : chainOk (r :: l) := by
  cases l with
  | nil => exact trivial
  | cons s t => exact ⟨h, hl⟩

lemma pagGo_bounded (fetch : Nat → PageResponse) :
    ∀ (fuel idx : Nat) (q : Query) (cur : Option String),
      (pagGo fetch fuel idx q cur).1.length ≤ fuel ∧
      chainOk (pagGo fetch fuel idx q cur).1 := by
  intro fuel
  induction fuel with
  | zero => intro idx q cur; exact ⟨Nat.le_refl 0, trivial⟩
  | succ n ih =>
    intro idx q cur
    simp only [pagGo]
    split
    · next hcond =>
      constructor
      · simpa using Nat.succ_le_succ (ih (idx + 1) _ _).1
      · refine chainOk_cons ?_ (ih (idx + 1) _ _).2
        simp [stopAfter, hcond]
    · exact ⟨Nat.succ_le_succ (Nat.zero_le n), trivial⟩

/-- C8: for every response sequence (the transport abstracted as the
oracle `fetch`), `execute_paginated` terminates, yields at most
`max_pages` pages, and every yielded page except the last passed the
continue test — equivalently, as soon as a response has `has_more` falsy
or no usable `next_cursor`, that page is the final one yielded, no matter
how large `max_pages` is. -/
theorem c8_pagination_terminates (fetch : Nat → PageResponse) (q : Query)
    (max_pages : Nat) :
    (execute_paginated fetch q max_pages).1.length ≤ max_pages ∧
    chainOk (execute_paginated fetch q max_pages).1 :=
  pagGo_bounded fetch max_pages 0 q Option.none

/-- A response claiming more pages while carrying no continuation cursor:
the pagination-protocol violation of claim C9. -/
def protocolViolation : PageResponse :=
  { pagination := some { nextCursor := Option.none, hasMore := true } }

/-- Counterexample to C9: on a response with `has_more=true` and no
`next_cursor`, the loop returns normally — the violating page is yielded
and iteration simply stops (the `break` on a falsy cursor); no error of
any kind is raised on this path, the loop body contains no raise at all. -/
theorem c9_protocol_error_counterexample :
    execute_paginated (fun _ => protocolViolation) qNoOptions 10
      = ([protocolViolation], qNoOptions) := rfl

/-- C9 (amended): a response claiming `has_more=true` without a usable
`next_cursor` stops iteration silently — the page is yielded as the last
one and the loop exits normally with the query unchanged; no distinct
pagination-protocol error exists in the code. -/
theorem c9_protocol_error_amended (fetch : Nat → PageResponse) (q : Query)
    (mp : Nat) (hmp : 1 ≤ mp)
    (hviol : (fetch 0).pagination
      = some { nextCursor := Option.none, hasMore := true }) :
    (execute_paginated fetch q mp).1 = [fetch 0] ∧
    (execute_paginated fetch q mp).2 = q := by
  obtain ⟨k, rfl⟩ : ∃ k, mp = k + 1 := ⟨mp - 1, by omega⟩
  constructor <;> simp [execute_paginated, pagGo, hviol, cursorUsable]

/-- Witness for C9 (amended) at a concrete violating response sequence. -/
theorem c9_protocol_error_amended_witness :
    (execute_paginated (fun _ => protocolViolation) qOrders 10).1
      = [protocolViolation] ∧
    (execute_paginated (fun _ => protocolViolation) qOrders 10).2 = qOrders :=
  c9_protocol_error_amended (fun _ => protocolViolation) qOrders 10
    (by decide) rfl

lemma applyClientOp_stub (st : ClientState) (op : ClientOp) :
    (applyClientOp st op).stub = st.stub := by
  cases op <;> cases hc : st.channel <;> rfl

lemma runClientOps_stub (ops : List ClientOp) (st : ClientState) :
    (runClientOps st ops).stub = st.stub := by
  induction ops generalizing st with
  | nil => rfl
  | cons op ops ih =>
    have h1 : runClientOps st (op :: ops) = runClientOps (applyClientOp st op) ops := rfl
    rw [h1, ih, applyClientOp_stub]

/-- C10: because the stub-creating line of `connect` is commented out,
`self._stub` stays `None` after any sequence of `connect`/`close` calls on
a fresh client, so `execute_query` always raises
`RuntimeError("Not connected. Call connect() first.")` — no request is
issued and no response is returned through this public method. -/
theorem c10_execute_query_always_raises (host tenant_id : String)
    (tmo : Int) (ops : List ClientOp) (q : Query) :
    execute_query (runClientOps (initClient host tenant_id tmo) ops) q
      = .error "Not connected. Call connect() first." := by
  have h : (runClientOps (initClient host tenant_id tmo) ops).stub
      = Option.none := runClientOps_stub ops (initClient host tenant_id tmo)
  simp [execute_query, h]

end ProtoQuery
